import Mathlib

/-!
Verification of the Context Daemon (ctxd) capture pipeline, a shallow
embedding of the TypeScript source in src/daemon/src/index.ts.

Strings are modelled as lists of characters, timestamps as natural-number
milliseconds, and JavaScript number comparisons on the decimal constants of
the source as exact rational comparisons.
-/

namespace Ctxd

/-- Model of a JavaScript string: a list of characters. -/
abbrev Str := List Char

/-- ASCII lowercasing of one character, the behaviour of
String.prototype.toLowerCase on the ASCII range used by the daemon. -/
def toLowerChar (c : Char) : Char :=
  if 'A' ≤ c ∧ c ≤ 'Z' then Char.ofNat (c.toNat + 32) else c

/-- Lowercasing of a whole string (prompt.toLowerCase() in the source). -/
def toLower (s : Str) : Str := s.map toLowerChar

/-- Test whether the second string is a prefix of the first. -/
def startsWith : Str → Str → Bool
  | _, [] => true
  | [], _ :: _ => false
  | c :: cs, d :: ds => (c = d) && startsWith cs ds

/-- Substring containment: String.prototype.includes of the source.
containsSub s sub is true when sub occurs contiguously inside s. -/
def containsSub : Str → Str → Bool
  | [], sub => sub.isEmpty
  | s@(_ :: t), sub => startsWith s sub || containsSub t sub

-- ===========================================================================
-- Intent classification (inferIntent / extractConcepts in the source)
-- ===========================================================================

/-- Intent categories, the union type of InferredIntent.category. -/
inductive Category
  | feature | bugfix | refactor | performance | security | docs | test
deriving DecidableEq

/-- InferredIntent record from the source. Confidence is a rational,
modelling the JavaScript float constants exactly. -/
structure InferredIntent where
  category : Category
  confidence : ℚ
  problem : Option Str := none
  solution : Str
  alternatives : List Str := []
  concepts : List Str
deriving DecidableEq

/-- CapturedInteraction record from the source; timestamp in ms. -/
structure CapturedInteraction where
  tool : Str
  prompt : Str
  timestamp : ℕ
  files : List Str
deriving DecidableEq

/-- Fixed keyword vocabulary of extractConcepts. -/
def conceptKeywords : List Str :=
  ["auth", "cache", "database", "api", "ui", "test",
   "performance", "security", "payment", "user", "session"].map String.toList

/-- Concept extraction from the source: keep every vocabulary keyword that
occurs in the lowercased text. -/
def extractConcepts (text : Str) : List Str :=
  conceptKeywords.filter (fun kw => containsSub (toLower text) kw)

/-- Rule-based intent classifier, the inferIntent method of the source:
an ordered if/else chain over substring tests of the lowercased prompt,
fixed confidence 0.7, solution = first 100 characters of the prompt. -/
def inferIntent (interaction : CapturedInteraction) : InferredIntent :=
  let prompt := toLower interaction.prompt
  let category : Category :=
    if containsSub prompt "fix".toList || containsSub prompt "bug".toList then
      .bugfix
    else if containsSub prompt "refactor".toList then
      .refactor
    else if containsSub prompt "perf".toList || containsSub prompt "optim".toList
        || containsSub prompt "fast".toList then
      .performance
    else if containsSub prompt "secur".toList || containsSub prompt "auth".toList then
      .security
    else if containsSub prompt "doc".toList || containsSub prompt "comment".toList then
      .docs
    else if containsSub prompt "test".toList then
      .test
    else
      .feature
  { category := category
    confidence := mkRat 7 10
    solution := interaction.prompt.take 100
    concepts := extractConcepts interaction.prompt }

-- ===========================================================================
-- Redaction (redactSensitive in the source)
-- ===========================================================================

/-- One token of a redaction regular expression: a character class together
with an optionality flag (for the JavaScript quantifier ?). Characters are
stored lowercased; matching lowers the input character, which models the
case-insensitive flag i. -/
structure RTok where
  chars : List Char
  opt : Bool
deriving DecidableEq

/-- A redaction pattern is a sequence of tokens. -/
abbrev RPattern := List RTok

/-- Literal pattern built from a string: each character is a mandatory
single-character class. -/
def litPat (s : Str) : RPattern := s.map (fun c => ⟨[c], false⟩)

/-- Greedy matching of a token sequence at the head of a string, with
backtracking over optional tokens; returns the number of characters
consumed, the semantics of the JavaScript regexes the daemon builds. -/
def matchTokens : RPattern → Str → Option ℕ
  | [], _ => some 0
  | tok :: rest, s =>
    let viaConsume : Option ℕ :=
      match s with
      | [] => none
      | c :: cs =>
        if (toLowerChar c) ∈ tok.chars then
          (matchTokens rest cs).map (· + 1)
        else
          none
    match viaConsume with
    | some n => some n
    | none => if tok.opt then matchTokens rest s else none

/-- Worker for global replacement, structurally recursive on a fuel bound
that always dominates the length of the remaining string. -/
def replacePatGo (p : RPattern) (repl : Str) : ℕ → Str → Str
  | _, [] => []
  | 0, s => s
  | fuel + 1, c :: cs =>
    match matchTokens p (c :: cs) with
    | some (n + 1) => repl ++ replacePatGo p repl fuel (cs.drop n)
    | _ => c :: replacePatGo p repl fuel cs

/-- Global replacement of every (leftmost, non-overlapping) match of a
pattern by a replacement string: String.prototype.replace with flags gi. -/
def replacePat (p : RPattern) (repl : Str) (s : Str) : Str :=
  replacePatGo p repl s.length s

/-- The literal replacement text of the source. -/
def redactedMark : Str := "[REDACTED]".toList

/-- The redactSensitive method: fold every configured pattern over the
text, replacing each match with [REDACTED]. -/
def redactSensitive (patterns : List RPattern) (text : Str) : Str :=
  patterns.foldl (fun result p => replacePat p redactedMark result) text

/-- Default redaction pattern api[_-]?key from loadConfig. -/
def apiKeyPattern : RPattern :=
  litPat "api".toList ++ [⟨['_', '-'], true⟩] ++ litPat "key".toList

/-- Default privacy.redact_patterns of loadConfig. -/
def defaultRedactPatterns : List RPattern :=
  [apiKeyPattern, litPat "secret".toList, litPat "password".toList,
   litPat "token".toList]

-- ===========================================================================
-- Configuration (loadConfig in the source)
-- ===========================================================================

/-- The adr section of DaemonConfig. -/
structure AdrConfig where
  auto_generate : Bool
  threshold : ℚ
deriving DecidableEq

/-- The slice of DaemonConfig the pipeline reads: the adr section and the
privacy.redact_patterns list. -/
structure DaemonConfig where
  adr : AdrConfig
  redact_patterns : List RPattern
deriving DecidableEq

/-- Defaults of loadConfig: auto_generate true, threshold 0.8, and the four
default redact patterns. -/
def defaultConfig : DaemonConfig :=
  { adr := { auto_generate := true, threshold := mkRat 4 5 }
    redact_patterns := defaultRedactPatterns }

-- ===========================================================================
-- Intent log and decision records (appendIntentLog / generateADR)
-- ===========================================================================

/-- A persisted intent-log line. The id is modelled by the numeric counter
value that the source formats as int_NNN; ts is the interaction timestamp. -/
structure IntentLogEntry where
  id : ℕ
  ts : ℕ
  tool : Str
  prompt : Str
  files : List Str
  intent : InferredIntent
deriving DecidableEq

/-- A generated decision record, the fields generateADR writes into the
ADR-NNN.md document. The num is the numeric part of the ADR-NNN id. -/
structure DecisionRecord where
  num : ℕ
  sourceEntry : ℕ
  confidence : ℚ
  titleExcerpt : Str
  promptExcerpt : Str
  decision : Str
  files : List Str
  concepts : List Str
deriving DecidableEq

/-- Record built by generateADR from an intent-log entry. -/
def mkDecisionRecord (num : ℕ) (entry : IntentLogEntry) : DecisionRecord :=
  { num := num
    sourceEntry := entry.id
    confidence := entry.intent.confidence
    titleExcerpt := entry.intent.solution.take 50
    promptExcerpt := entry.prompt.take 200
    decision := entry.intent.solution
    files := entry.files
    concepts := entry.intent.concepts }

/-- The generateADR method: the next number is one greater than the COUNT of
entries already in the decisions directory (existing.length + 1 in the
source), and the new record is appended to the store. Returns the new id and
the updated store. -/
def generateADR (store : List DecisionRecord) (entry : IntentLogEntry) :
    ℕ × List DecisionRecord :=
  let nextNum := store.length + 1
  (nextNum, store ++ [mkDecisionRecord nextNum entry])

-- ===========================================================================
-- Daemon state and the capture/processing pipeline
-- ===========================================================================

/-- The mutable daemon state the pipeline touches: configuration, the
recent-changed-files buffer with its 30-second clear deadline, the intent
counter, the persisted intent log, and the decisions store. -/
structure DaemonState where
  config : DaemonConfig
  recentChangedFiles : List Str
  clearDeadline : Option ℕ
  intentCounter : ℕ
  intentLog : List IntentLogEntry
  decisions : List DecisionRecord
deriving DecidableEq

/-- The capturePrompt method: redact the raw prompt, snapshot the current
recent-changed-files buffer, and build the interaction. -/
def capturePrompt (st : DaemonState) (tool raw : Str) (now : ℕ) :
    CapturedInteraction :=
  { tool := tool
    prompt := redactSensitive st.config.redact_patterns raw
    timestamp := now
    files := st.recentChangedFiles }

/-- The intent-log entry that processInteraction builds for an interaction:
next counter value, interaction timestamp, tool, (already redacted) prompt,
file set, and the inferred intent. -/
def mkLogEntry (st : DaemonState) (i : CapturedInteraction) : IntentLogEntry :=
  { id := st.intentCounter + 1
    ts := i.timestamp
    tool := i.tool
    prompt := i.prompt
    files := i.files
    intent := inferIntent i }

/-- The processInteraction method: infer intent, append the log entry, and
generate an ADR when auto_generate is on and the confidence reaches the
threshold (intent.confidence >= this.config.adr.threshold in the source). -/
def processInteraction (st : DaemonState) (i : CapturedInteraction) :
    DaemonState :=
  let entry := mkLogEntry st i
  let log := st.intentLog ++ [entry]
  if st.config.adr.auto_generate ∧ st.config.adr.threshold ≤ entry.intent.confidence then
    { st with intentCounter := st.intentCounter + 1, intentLog := log
              decisions := (generateADR st.decisions entry).2 }
  else
    { st with intentCounter := st.intentCounter + 1, intentLog := log }

/-- The full capture path for one prompt: capturePrompt followed by the
delayed processInteraction on the captured interaction. -/
def captureAndProcess (st : DaemonState) (tool raw : Str) (now : ℕ) :
    DaemonState :=
  processInteraction st (capturePrompt st tool raw now)

-- ===========================================================================
-- Event correlation (trackFileChange / capturePrompt timing)
-- ===========================================================================

/-- Delay constants of the source: the 30000 ms recent-file clear timeout of
trackFileChange. -/
def fileClearDelayMs : ℕ := 30000

/-- The 2000 ms post-prompt processing delay of capturePrompt. -/
def promptProcessDelayMs : ℕ := 2000

/-- State of the correlation layer: the recent-changed-files buffer, the
pending clear deadline of its timer, and the interactions captured so far. -/
structure CorrState where
  recent : List Str
  deadline : Option ℕ
  captured : List CapturedInteraction
deriving DecidableEq

/-- Raw events seen by the watchers, each carrying its arrival time in ms. -/
inductive RawEvent
  | fileChange (p : Str) (t : ℕ)
  | promptEv (tool raw : Str) (t : ℕ)
deriving DecidableEq

/-- Fire the pending 30-second clear timer if its deadline has passed by
time t: the setTimeout callback of trackFileChange clearing the buffer. -/
def applyTimer (st : CorrState) (t : ℕ) : CorrState :=
  match st.deadline with
  | some d => if d ≤ t then { st with recent := [], deadline := none } else st
  | none => st

/-- Insertion into the recent-changed-files set, preserving first-insertion
order as a JavaScript Set does. -/
def setInsert (l : List Str) (p : Str) : List Str :=
  if p ∈ l then l else l ++ [p]

/-- One correlation step. A file change (trackFileChange) adds the path to
the buffer and re-arms the 30 s clear timer; a prompt (capturePrompt)
snapshots the buffer into a new interaction whose file set is frozen from
that moment on. -/
def stepEvent (pats : List RPattern) (st : CorrState) : RawEvent → CorrState
  | .fileChange p t =>
    let st := applyTimer st t
    { st with recent := setInsert st.recent p
              deadline := some (t + fileClearDelayMs) }
  | .promptEv tool raw t =>
    let st := applyTimer st t
    { st with captured := st.captured ++
        [{ tool := tool, prompt := redactSensitive pats raw
           timestamp := t, files := st.recent }] }

/-- Run the correlation layer over a time-ordered event list from the empty
initial state. -/
def runEvents (pats : List RPattern) (events : List RawEvent) : CorrState :=
  events.foldl (stepEvent pats) ⟨[], none, []⟩

-- ===========================================================================
-- Claude Code log parsing (parseClaudeCodeLog)
-- ===========================================================================

/-- The content field of a parsed log line: either a plain string or an
array of parts, each optionally carrying a text field. -/
inductive LogContent
  | str (s : Str)
  | parts (l : List (Option Str))
deriving DecidableEq

/-- One successfully JSON-parsed log line: optional role and content. -/
structure LogLine where
  role : Option Str
  content : Option LogContent
deriving DecidableEq

/-- JavaScript truthiness of entry.content: absent and the empty string are
falsy; any array is truthy. -/
def contentTruthy : Option LogContent → Bool
  | none => false
  | some (.str s) => !s.isEmpty
  | some (.parts _) => true

/-- Prompt extraction of the source: a string content is the prompt itself;
an array is mapped over c.text with empty-string fallback and joined with
single spaces. -/
def extractPrompt : LogContent → Str
  | .str s => s
  | .parts l => List.intercalate [' '] (l.map (fun o => o.getD []))

/-- The per-line filter of parseClaudeCodeLog: an unparsable line yields
nothing; a parsed line yields its prompt only when the role is user, the
content is truthy, and the prompt is strictly longer than 10 characters. -/
def promptOfLine : Option LogLine → Option Str
  | none => none
  | some line =>
    match line.role, line.content with
    | some r, some c =>
      if r = "user".toList ∧ contentTruthy (some c) = true
          ∧ 10 < (extractPrompt c).length then
        some (extractPrompt c)
      else
        none
    | _, _ => none

/-- The parseClaudeCodeLog loop over every line of the file: the list of
prompts handed to capturePrompt. -/
def parseClaudeCodeLog (lines : List (Option LogLine)) : List Str :=
  lines.filterMap promptOfLine

/-- Feeding a whole parsed log through the capture pipeline: every captured
prompt goes through captureAndProcess with tool claude-code. -/
def processLog (st : DaemonState) (lines : List (Option LogLine)) (now : ℕ) :
    DaemonState :=
  (parseClaudeCodeLog lines).foldl
    (fun s p => captureAndProcess s ("claude-code".toList) p now) st

/-- Daemon state freshly constructed over an empty .context directory. -/
def initState (cfg : DaemonConfig) : DaemonState :=
  { config := cfg
    recentChangedFiles := []
    clearDeadline := none
    intentCounter := 0
    intentLog := []
    decisions := [] }

-- ===========================================================================
-- Set similarity and the spec-side classifier description
-- ===========================================================================

/-- Size of the intersection of two finite string sets given as lists. -/
def setInterN (a b : List Str) : ℕ := (a.dedup.filter (· ∈ b)).length

/-- Size of the union of two finite string sets given as lists. -/
def setUnionN (a b : List Str) : ℕ := ((a ++ b).dedup).length

/-- Jaccard similarity of two finite string sets (0 when both are empty). -/
def jaccard (a b : List Str) : ℚ := mkRat (setInterN a b) (setUnionN a b)

/-- The ordered keyword rule table the spec describes for the rule-based
classifier: first matching rule wins, default category feature. -/
def ruleTable : List (Category × List Str) :=
  [(.bugfix, ["fix", "bug"].map String.toList),
   (.refactor, ["refactor"].map String.toList),
   (.performance, ["perf", "optim", "fast"].map String.toList),
   (.security, ["secur", "auth"].map String.toList),
   (.docs, ["doc", "comment"].map String.toList),
   (.test, ["test"].map String.toList)]

/-- First-matching-rule classification over the lowercased prompt, the
behaviour the spec ascribes to the rule-based classifier: walk the rule
table in order, return the first category one of whose keywords occurs in
the prompt, default to feature. -/
def firstMatchIn : List (Category × List Str) → Str → Category
  | [], _ => .feature
  | (cat, kws) :: rest, p =>
    if kws.any (fun kw => containsSub p kw) then cat else firstMatchIn rest p

/-- First-matching-rule classification against the full rule table. -/
def firstMatchCategory (p : Str) : Category := firstMatchIn ruleTable p

/-- String label of a category, as it appears in the source union type. -/
def catName : Category → Str
  | .feature => "feature".toList
  | .bugfix => "bugfix".toList
  | .refactor => "refactor".toList
  | .performance => "performance".toList
  | .security => "security".toList
  | .docs => "docs".toList
  | .test => "test".toList

-- ===========================================================================
-- Commit linking
-- ===========================================================================

/-- Modelled from the spec: the linkToCommit and getRecentCommit methods of
the source are empty TODO stubs, so the Commit Linker scoring is missing
from the code and is modelled from the spec's words: the score of an
interaction/commit pair is 0.3 times time proximity plus 0.5 times file
overlap plus 0.2 times message similarity. -/
def commitLinkScore (t f m : ℚ) : ℚ :=
  mkRat 3 10 * t + mkRat 5 10 * f + mkRat 2 10 * m

/-- Modelled from the spec: the automatic-link acceptance threshold 0.7. -/
def autoLinkThreshold : ℚ := mkRat 7 10

/-- Outcome of linking one interaction to one commit: either an accepted
link or an orphan flag; in both cases the interaction id is retained. -/
inductive LinkOutcome
  | accepted (interactionId : ℕ) (commit : Str) (score : ℚ)
  | orphan (interactionId : ℕ) (score : ℚ)
deriving DecidableEq

/-- Modelled from the spec: a link is accepted automatically when the score
reaches the threshold; otherwise the interaction is flagged orphan and
retained, never dropped. -/
def linkDecision (interactionId : ℕ) (commit : Str) (t f m : ℚ) :
    LinkOutcome :=
  let score := commitLinkScore t f m
  if autoLinkThreshold ≤ score then
    .accepted interactionId commit score
  else
    .orphan interactionId score

-- ===========================================================================
-- Concrete fixtures and auxiliary measures used by individual claims
-- ===========================================================================

/-- A configuration override with ADR threshold 0, as a caller may pass to
the ContextDaemon constructor; it makes the rule-based confidence 0.7 pass
the gate so that ADR generation is observable. -/
def lowConfig : DaemonConfig :=
  { adr := { auto_generate := true, threshold := 0 }
    redact_patterns := [] }

/-- A decisions store holding a single record numbered 5, as the decisions
directory contains after outside edits left a gap in the numbering. -/
def gapStore : List DecisionRecord :=
  [{ num := 5
     sourceEntry := 1
     confidence := mkRat 7 10
     titleExcerpt := []
     promptExcerpt := []
     decision := []
     files := []
     concepts := ["auth".toList] }]

/-- A concrete intent-log entry with category bugfix and concept auth. -/
def c6entry : IntentLogEntry :=
  { id := 1
    ts := 0
    tool := "claude-code".toList
    prompt := "fix auth".toList
    files := []
    intent := { category := .bugfix
                confidence := mkRat 7 10
                solution := "fix auth".toList
                concepts := ["auth".toList] } }

/-- Length of the prompt a log line would yield (0 when it has none). -/
def promptLenOfLine (line : LogLine) : ℕ :=
  match line.content with
  | some c => (extractPrompt c).length
  | none => 0

-- ===========================================================================
-- Helper lemmas
-- ===========================================================================

lemma mkRat_7_10 : (mkRat 7 10 : ℚ) = 7/10 := by rw [Rat.mkRat_eq_div]; norm_num

lemma mkRat_4_5 : (mkRat 4 5 : ℚ) = 4/5 := by rw [Rat.mkRat_eq_div]; norm_num

lemma mkRat_3_10 : (mkRat 3 10 : ℚ) = 3/10 := by rw [Rat.mkRat_eq_div]; norm_num

lemma mkRat_5_10 : (mkRat 5 10 : ℚ) = 5/10 := by rw [Rat.mkRat_eq_div]; norm_num

lemma mkRat_2_10 : (mkRat 2 10 : ℚ) = 2/10 := by rw [Rat.mkRat_eq_div]; norm_num

lemma processInteraction_intentLog (st : DaemonState) (i : CapturedInteraction) :
    (processInteraction st i).intentLog = st.intentLog ++ [mkLogEntry st i] := by
  simp only [processInteraction]
  split <;> rfl

lemma processInteraction_decisions (st : DaemonState) (i : CapturedInteraction) :
    (processInteraction st i).decisions =
      if st.config.adr.auto_generate ∧
          st.config.adr.threshold ≤ (inferIntent i).confidence then
        (generateADR st.decisions (mkLogEntry st i)).2
      else
        st.decisions := by
  by_cases h : st.config.adr.auto_generate = true ∧
      st.config.adr.threshold ≤ (inferIntent i).confidence
  · simp [processInteraction, mkLogEntry, h]
  · simp [processInteraction, mkLogEntry, h]

lemma processInteraction_config (st : DaemonState) (i : CapturedInteraction) :
    (processInteraction st i).config = st.config := by
  simp only [processInteraction]
  split <;> rfl

lemma applyTimer_captured (st : CorrState) (t : ℕ) :
    (applyTimer st t).captured = st.captured := by
  rcases st with ⟨r, d, c⟩
  cases d with
  | none => rfl
  | some dl => by_cases h : dl ≤ t <;> simp [applyTimer, h]

lemma foldl_captured_mem (pats : List RPattern) (l : List RawEvent)
    (st : CorrState) (i : CapturedInteraction) (h : i ∈ st.captured) :
    i ∈ (l.foldl (stepEvent pats) st).captured := by
  induction l generalizing st with
  | nil => exact h
  | cons e es ih =>
    apply ih
    cases e with
    | fileChange p t => simpa [stepEvent, applyTimer_captured] using h
    | promptEv tool raw t => simp [stepEvent, applyTimer_captured, h]

lemma replacePatGo_no_match (p : RPattern) (r : Str) (fuel : ℕ) (text : Str)
    (h : ∀ s ∈ text.tails, s ≠ [] → matchTokens p s = none) :
    replacePatGo p r fuel text = text := by
  induction fuel generalizing text with
  | zero => cases text <;> rfl
  | succ n ih =>
    cases text with
    | nil => rfl
    | cons c cs =>
      have hm : matchTokens p (c :: cs) = none :=
        h (c :: cs) (by simp [List.mem_tails]) (by simp)
      simp only [replacePatGo, hm]
      rw [ih cs (fun s hs hne => h s (by simp [List.tails_cons, hs]) hne)]

lemma redactSensitive_no_match (patterns : List RPattern) (text : Str)
    (h : ∀ p ∈ patterns, ∀ s ∈ text.tails, s ≠ [] → matchTokens p s = none) :
    redactSensitive patterns text = text := by
  induction patterns with
  | nil => rfl
  | cons p ps ih =>
    unfold redactSensitive at ih ⊢
    simp only [List.foldl_cons]
    rw [show replacePat p redactedMark text = text from
      replacePatGo_no_match p redactedMark text.length text (h p (by simp))]
    exact ih (fun q hq => h q (by simp [hq]))

-- ===========================================================================
-- Claim theorems
-- ===========================================================================

/-- Claim C1: every entry the capture pipeline appends to the intent log
stores exactly redactSensitive applied to the raw prompt, and the whole
pipeline result depends on the raw prompt only through its redaction, so no
stage after capture writes or can recover the un-redacted text. -/
theorem c1_redaction_before_persistence (st : DaemonState) (tool raw : Str)
    (now : ℕ) :
    (∀ e ∈ (captureAndProcess st tool raw now).intentLog,
        e ∈ st.intentLog ∨
          e.prompt = redactSensitive st.config.redact_patterns raw)
    ∧ (∀ raw2 : Str,
        redactSensitive st.config.redact_patterns raw =
          redactSensitive st.config.redact_patterns raw2 →
        captureAndProcess st tool raw now = captureAndProcess st tool raw2 now) := by
  constructor
  · intro e he
    unfold captureAndProcess at he
    rw [processInteraction_intentLog] at he
    rcases List.mem_append.mp he with h1 | h2
    · exact Or.inl h1
    · right
      rw [List.mem_singleton.mp h2]
      rfl
  · intro raw2 h
    unfold captureAndProcess capturePrompt
    rw [h]

/-- Witness for C1 at a concrete state: two raw prompts differing only in
the case of the word password have equal redactions, and the pipeline
treats them identically. -/
theorem c1_witness :
    redactSensitive (initState defaultConfig).config.redact_patterns
        ("my password A".toList)
      = redactSensitive (initState defaultConfig).config.redact_patterns
        ("my PASSWORD A".toList)
    ∧ captureAndProcess (initState defaultConfig) ("claude-code".toList)
        ("my password A".toList) 0
      = captureAndProcess (initState defaultConfig) ("claude-code".toList)
        ("my PASSWORD A".toList) 0 :=
  ⟨by decide,
   (c1_redaction_before_persistence (initState defaultConfig)
      ("claude-code".toList) ("my password A".toList) 0).2
     ("my PASSWORD A".toList) (by decide)⟩

/-- Claim C2: the rule-based classifier is deterministic: two interactions
with the same prompt text and file set get the same inferred intent, in
particular the same category and the same confidence. -/
theorem c2_classifier_deterministic (i1 i2 : CapturedInteraction)
    (hp : i1.prompt = i2.prompt) (hf : i1.files = i2.files) :
    inferIntent i1 = inferIntent i2
    ∧ (inferIntent i1).category = (inferIntent i2).category
    ∧ (inferIntent i1).confidence = (inferIntent i2).confidence := by
  have h : inferIntent i1 = inferIntent i2 := by
    unfold inferIntent extractConcepts
    rw [hp]
  have hfiles : i1.files = i2.files := hf
  exact ⟨h, by rw [h], by rw [h]⟩

/-- Witness for C2: the same prompt and file set at two different capture
times classify identically. -/
theorem c2_witness :
    inferIntent ⟨"claude-code".toList, "fix the auth bug".toList, 0, []⟩
      = inferIntent ⟨"claude-code".toList, "fix the auth bug".toList, 99999, []⟩ :=
  (c2_classifier_deterministic _ _ rfl rfl).1

/-- Claim C3: the rule-based classifier is first-match keyword
classification over the ordered rule table (bugfix, refactor, performance,
security, docs, test, default feature), always assigns confidence 0.7, and
extracts as concepts exactly the vocabulary keywords occurring in the
lowercased prompt. -/
theorem c3_rule_based_classifier (i : CapturedInteraction) :
    (inferIntent i).category = firstMatchCategory (toLower i.prompt)
    ∧ (inferIntent i).confidence = 7/10
    ∧ (inferIntent i).concepts
        = conceptKeywords.filter (fun kw => containsSub (toLower i.prompt) kw) := by
  refine ⟨?_, mkRat_7_10, rfl⟩
  simp [inferIntent, firstMatchCategory, firstMatchIn, ruleTable, or_assoc]

/-- Claim C4: a DecisionRecord is synthesized from an interaction exactly
when auto_generate is enabled and the inferred confidence reaches the
threshold; below the threshold the decisions store is untouched; the
default threshold is 0.8. -/
theorem c4_adr_gate (st : DaemonState) (i : CapturedInteraction) :
    ((processInteraction st i).decisions.length = st.decisions.length + 1 ↔
      (st.config.adr.auto_generate = true ∧
        st.config.adr.threshold ≤ (inferIntent i).confidence))
    ∧ ((processInteraction st i).decisions = st.decisions ↔
      ¬(st.config.adr.auto_generate = true ∧
        st.config.adr.threshold ≤ (inferIntent i).confidence))
    ∧ defaultConfig.adr.threshold = 4/5 := by
  have hd := processInteraction_decisions st i
  by_cases h : st.config.adr.auto_generate = true ∧
      st.config.adr.threshold ≤ (inferIntent i).confidence
  · rw [if_pos h] at hd
    refine ⟨?_, ?_, mkRat_4_5⟩
    · simp [hd, generateADR, h]
    · constructor
      · intro heq
        exfalso
        rw [hd] at heq
        have := congrArg List.length heq
        simp [generateADR] at this
      · intro hn
        exact absurd h hn
  · rw [if_neg h] at hd
    refine ⟨?_, ?_, mkRat_4_5⟩
    · simp only [hd]
      constructor
      · intro heq; omega
      · intro hc; exact absurd hc h
    · simp [hd, h]

/-- Counterexample to claim C5: with an ADR threshold the confidence
passes, a first interaction about auth creates a record with trigger set
auth; a second identical interaction has Jaccard similarity 1 (at least
the 0.6 dedup threshold) with that record, yet a second DecisionRecord is
created and the first record is left unchanged: no deduplication exists in
generateADR. -/
theorem c5_counterexample :
    (captureAndProcess (initState lowConfig) ("claude-code".toList)
        ("auth work".toList) 0).decisions.map DecisionRecord.concepts
      = [["auth".toList]]
    ∧ jaccard (extractConcepts ("auth work".toList)) ["auth".toList] = 1
    ∧ ((3/5 : ℚ) ≤ 1)
    ∧ (captureAndProcess
        (captureAndProcess (initState lowConfig) ("claude-code".toList)
          ("auth work".toList) 0)
        ("claude-code".toList) ("auth work".toList) 5000).decisions.map
        DecisionRecord.concepts
      = [["auth".toList], ["auth".toList]] :=
  ⟨by decide, by decide, by norm_num, by decide⟩

/-- Claim C5 as amended: no similarity is computed and no triggers are
extended; every interaction that passes the confidence gate unconditionally
appends one new DecisionRecord, leaving every existing record in place and
unchanged, regardless of any Jaccard similarity to existing records. -/
theorem c5_amended_no_dedup (st : DaemonState) (i : CapturedInteraction)
    (h : st.config.adr.auto_generate = true ∧
      st.config.adr.threshold ≤ (inferIntent i).confidence) :
    (processInteraction st i).decisions.length = st.decisions.length + 1
    ∧ ∀ r ∈ st.decisions, r ∈ (processInteraction st i).decisions := by
  have hd := processInteraction_decisions st i
  rw [if_pos h] at hd
  refine ⟨by simp [hd, generateADR], ?_⟩
  intro r hr
  rw [hd]
  simp [generateADR, hr]

/-- Witness for the amended C5 at a concrete passing interaction. -/
theorem c5_witness :
    (processInteraction (initState lowConfig)
        ⟨"claude-code".toList, "auth work".toList, 0, []⟩).decisions.length
      = (initState lowConfig).decisions.length + 1 :=
  (c5_amended_no_dedup _ _ (by decide)).1

/-- Counterexample to claim C6: over a decisions store whose single record
is numbered 5, generateADR assigns id 2 (count plus one), not 6 (highest
plus one), and no record of the result carries the interaction category
bugfix among its concepts, so triggers are not concepts united with the
category. -/
theorem c6_counterexample :
    (generateADR gapStore c6entry).1 = 2
    ∧ (∀ r ∈ gapStore, r.num = 5)
    ∧ (2 : ℕ) ≠ 5 + 1
    ∧ ∀ r ∈ (generateADR gapStore c6entry).2,
        catName c6entry.intent.category ∉ r.concepts :=
  ⟨rfl, by decide, by decide, by decide⟩

/-- Claim C6 as amended: a new DecisionRecord gets id one greater than the
COUNT of existing records (equal to highest plus one only for contiguous
numbering from 1), carries exactly the interaction concepts without the
category, and generateADR never deletes existing records. -/
theorem c6_amended (store : List DecisionRecord) (entry : IntentLogEntry) :
    (generateADR store entry).1 = store.length + 1
    ∧ List.take store.length (generateADR store entry).2 = store
    ∧ (generateADR store entry).2.length = store.length + 1
    ∧ ∀ r ∈ (generateADR store entry).2,
        r ∈ store ∨ (r.num = store.length + 1
          ∧ r.concepts = entry.intent.concepts) := by
  refine ⟨rfl, ?_, by simp [generateADR], ?_⟩
  · simp [generateADR, List.take_left]
  · intro r hr
    simp [generateADR] at hr
    rcases hr with h | h
    · exact Or.inl h
    · subst h
      exact Or.inr ⟨rfl, rfl⟩

/-- Claim C7 (commit linker modelled from the spec, the source methods
being empty stubs): the score is the stated weighted sum, lies in [0,1] for
signals in [0,1], equals 1 when all three signals are 1, the link is
accepted exactly when the score reaches 0.7, and otherwise the interaction
is flagged orphan with its id and score retained. -/
theorem c7_commit_link_score (t f m : ℚ)
    (ht0 : 0 ≤ t) (ht1 : t ≤ 1) (hf0 : 0 ≤ f) (hf1 : f ≤ 1)
    (hm0 : 0 ≤ m) (hm1 : m ≤ 1) :
    commitLinkScore t f m = 3/10 * t + 5/10 * f + 2/10 * m
    ∧ (0 ≤ commitLinkScore t f m ∧ commitLinkScore t f m ≤ 1)
    ∧ commitLinkScore 1 1 1 = 1
    ∧ ∀ iid commit,
        (linkDecision iid commit t f m
            = .accepted iid commit (commitLinkScore t f m)
          ↔ (7/10 : ℚ) ≤ commitLinkScore t f m)
        ∧ (commitLinkScore t f m < 7/10 →
            linkDecision iid commit t f m
              = .orphan iid (commitLinkScore t f m)) := by
  have hval : commitLinkScore t f m = 3/10 * t + 5/10 * f + 2/10 * m := by
    unfold commitLinkScore
    rw [mkRat_3_10, mkRat_5_10, mkRat_2_10]
  have hone : commitLinkScore 1 1 1 = 1 := by
    norm_num [commitLinkScore, Rat.mkRat_eq_div]
  refine ⟨hval, ⟨?_, ?_⟩, hone, ?_⟩
  · rw [hval]; nlinarith
  · rw [hval]; nlinarith
  · intro iid commit
    constructor
    · unfold linkDecision autoLinkThreshold
      by_cases hsc : mkRat 7 10 ≤ commitLinkScore t f m
      · rw [if_pos hsc]
        rw [mkRat_7_10] at hsc
        simp [hsc]
      · rw [if_neg hsc]
        rw [mkRat_7_10] at hsc
        simp [hsc]
    · intro hlt
      unfold linkDecision autoLinkThreshold
      rw [if_neg (by rw [mkRat_7_10]; exact not_le.mpr hlt)]

/-- Witness for C7 at the all-ones signal triple: the score is exactly 1
and such a pair is auto-linked. -/
theorem c7_witness :
    commitLinkScore 1 1 1 = 1
    ∧ (linkDecision 1 ("abc".toList) 1 1 1
        = .accepted 1 ("abc".toList) (commitLinkScore 1 1 1)
      ↔ (7/10 : ℚ) ≤ commitLinkScore 1 1 1) :=
  ⟨(c7_commit_link_score 1 1 1 (by decide) (by decide) (by decide) (by decide)
      (by decide) (by decide)).2.2.1,
   ((c7_commit_link_score 1 1 1 (by decide) (by decide) (by decide) (by decide)
      (by decide) (by decide)).2.2.2 1 ("abc".toList)).1⟩

/-- Claim C8 as amended: a prompt captures exactly the recent-changes
buffer as it stands when the prompt arrives (files survive until 30 s of
file-change inactivity, so files older than 30 s may be included), the file
set is frozen at capture so no event after the prompt ever extends it, and
the source constants are the 30000 ms clear delay and the 2000 ms
post-prompt processing delay. -/
theorem c8_amended (pats : List RPattern) (pre post : List RawEvent)
    (tool raw : Str) (tp : ℕ) :
    ({ tool := tool, prompt := redactSensitive pats raw, timestamp := tp,
       files := (applyTimer (runEvents pats pre) tp).recent } :
        CapturedInteraction)
      ∈ (runEvents pats (pre ++ RawEvent.promptEv tool raw tp :: post)).captured
    ∧ fileClearDelayMs = 30000 ∧ promptProcessDelayMs = 2000 := by
  refine ⟨?_, rfl, rfl⟩
  unfold runEvents
  rw [List.foldl_append, List.foldl_cons]
  apply foldl_captured_mem
  simp [stepEvent, applyTimer_captured, runEvents]

/-- Counterexample to claim C8: a file changed 40 s before the prompt (with
another change 25 s in between keeping the timer armed) IS attached, though
it lies outside the claimed 30-second window; and a file changed 1 s after
the prompt, inside the claimed 2-second trailing window, is NOT attached,
because the file set is frozen at capture time. -/
theorem c8_counterexample :
    ((runEvents defaultRedactPatterns
        [.fileChange ("a.ts".toList) 0, .fileChange ("b.ts".toList) 25000,
         .promptEv ("claude-code".toList) ("add tests".toList) 40000]).captured.map
        CapturedInteraction.files)
      = [["a.ts".toList, "b.ts".toList]]
    ∧ 30000 < 40000 - 0
    ∧ ((runEvents defaultRedactPatterns
        [.promptEv ("claude-code".toList) ("add tests".toList) 0,
         .fileChange ("c.ts".toList) 1000]).captured.map
        CapturedInteraction.files)
      = [[]]
    ∧ 1000 ≤ 2000 :=
  ⟨by decide, by decide, by decide, by decide⟩

/-- Claim C9: redaction replaces pattern matches with the literal
[REDACTED] and leaves match-free text unchanged; on the default patterns,
password: hunter2 keeps the secret value hunter2 in the output and only the
keyword is replaced. -/
theorem c9_redact_exact :
    (∀ (patterns : List RPattern) (text : Str),
        (∀ p ∈ patterns, ∀ s ∈ text.tails, s ≠ [] → matchTokens p s = none) →
        redactSensitive patterns text = text)
    ∧ redactSensitive defaultRedactPatterns ("password: hunter2".toList)
        = ("[REDACTED]: hunter2".toList)
    ∧ containsSub
        (redactSensitive defaultRedactPatterns ("password: hunter2".toList))
        ("hunter2".toList) = true :=
  ⟨redactSensitive_no_match, by decide, by decide⟩

/-- Witness for C9: a concrete text with no pattern match anywhere is
returned unchanged. -/
theorem c9_witness :
    redactSensitive defaultRedactPatterns ("hello world".toList)
      = ("hello world".toList) :=
  c9_redact_exact.1 defaultRedactPatterns ("hello world".toList) (by decide)

/-- Claim C10: a log line whose extracted prompt has length at most 10
yields no captured prompt, contributes nothing to the parsed log, and
leaves the daemon state (intent log and decisions included) unchanged. -/
theorem c10_short_prompts_discarded (st : DaemonState) (line : LogLine)
    (now : ℕ) (h : promptLenOfLine line ≤ 10) :
    promptOfLine (some line) = none
    ∧ (∀ pre post, parseClaudeCodeLog (pre ++ some line :: post)
        = parseClaudeCodeLog (pre ++ post))
    ∧ processLog st [some line] now = st := by
  have hp : promptOfLine (some line) = none := by
    rcases line with ⟨r, c⟩
    cases r with
    | none => rfl
    | some rv =>
      cases c with
      | none => rfl
      | some cc =>
        show (if rv = "user".toList ∧ contentTruthy (some cc) = true
            ∧ 10 < (extractPrompt cc).length then some (extractPrompt cc)
          else none) = none
        rw [if_neg]
        intro hcond
        have hlen := hcond.2.2
        simp [promptLenOfLine] at h
        omega
  refine ⟨hp, ?_, ?_⟩
  · intro pre post
    simp [parseClaudeCodeLog, List.filterMap_append, List.filterMap_cons, hp]
  · unfold processLog
    simp [parseClaudeCodeLog, List.filterMap_cons, hp]

/-- Witness for C10: a user line whose prompt short has length 5 is
discarded and the daemon state is untouched. -/
theorem c10_witness :
    promptOfLine (some ⟨some ("user".toList), some (.str ("short".toList))⟩)
      = none
    ∧ processLog (initState defaultConfig)
        [some ⟨some ("user".toList), some (.str ("short".toList))⟩] 0
      = initState defaultConfig :=
  ⟨(c10_short_prompts_discarded (initState defaultConfig)
      ⟨some ("user".toList), some (.str ("short".toList))⟩ 0 (by decide)).1,
   (c10_short_prompts_discarded (initState defaultConfig)
      ⟨some ("user".toList), some (.str ("short".toList))⟩ 0 (by decide)).2.2⟩

end Ctxd
